import Mathlib

/-!
Verification of the xero2 identity-provider adapter (package xero2 of the
goth fork).  The fetch layer (provider construction, scope assembly, and the
two-step identity resolution of FetchUser) is a shallow embedding of
providers/xero2/xero2.go; the HTTP transport is an injected oracle and the
JSON bodies of the two responses are modelled by an explicit Json value type,
with decoders mirroring the behaviour of Go encoding/json on the concrete
target types used by the source.  The session serialization layer
(Marshal/Unmarshal) embeds providers/xero2/session.go, whose source is not in
the repository snapshot; it is modelled from the spec as indicated on each of
its definitions.
-/

namespace Xero2

/-- A JSON value as produced by Go encoding/json on the bodies handled here.
Numbers are modelled as integers; no claim touches a fractional number. -/
inductive Json where
  | null : Json
  | bool (b : Bool) : Json
  | num (n : Int) : Json
  | str (s : String) : Json
  | arr (elems : List Json) : Json
  | obj (fields : List (String × Json)) : Json

/-- Mirrors xero2.go type XeroTenant (json tags id, tenantId, tenantType). -/
structure XeroTenant where
  ID : String
  TenantID : String
  TenantType : String
  deriving DecidableEq

/-- Mirrors xero2.go type XeroOrganization. -/
structure XeroOrganization where
  Name : String
  LegalName : String
  OrganisationType : String
  CountryCode : String
  ShortCode : String
  deriving DecidableEq

/-- A Go time.Time at second granularity in UTC, the only granularity the
serialized sessions use (RFC3339, trailing Z). -/
structure GoTime where
  year : Nat
  month : Nat
  day : Nat
  hour : Nat
  minute : Nat
  second : Nat
  deriving DecidableEq

/-- The Go zero time.Time, which formats as 0001-01-01T00:00:00Z. -/
def zeroTime : GoTime :=
  { year := 1, month := 1, day := 1, hour := 0, minute := 0, second := 0 }

/-- The xero2 Session.  Fields follow the data model of the spec and the
serialized form pinned by Test_ToJSON: AuthURL, AccessToken, Hostname, HMAC,
ExpiresAt are serialized; RefreshToken is carried (FetchUser copies it into
the user record) but excluded from the JSON form. -/
structure Session where
  AuthURL : String
  AccessToken : String
  RefreshToken : String
  Hostname : String
  HMAC : String
  ExpiresAt : GoTime
  deriving DecidableEq

/-- The subset of goth.User the xero2 adapter populates. -/
structure User where
  RawData : Option (List (String × Json))
  Provider : String
  Name : String
  NickName : String
  UserID : String
  AccessToken : String
  RefreshToken : String
  ExpiresAt : GoTime

/-- xero2.go constant providerName. -/
def providerName : String := "xero2"

/-- xero2.go constant authURL. -/
def authURL : String := "https://login.xero.com/identity/connect/authorize"

/-- xero2.go constant tokenURL. -/
def tokenURL : String := "https://identity.xero.com/connect/token"

/-- xero2.go constant tenantsURL. -/
def tenantsURL : String := "https://api.xero.com/connections"

/-- xero2.go constant endpointProfile. -/
def endpointProfile : String := "https://api.xero.com/api.xro/2.0/Organisation"

/-- scopes.go constant ScopeOfflineAccess. -/
def ScopeOfflineAccess : String := "offline_access"

/-- scopes.go constant ScopeOpenID. -/
def ScopeOpenID : String := "openid"

/-- scopes.go constant ScopeProfile. -/
def ScopeProfile : String := "profile"

/-- scopes.go constant ScopeEmail. -/
def ScopeEmail : String := "email"

/-- scopes.go constant ScopeAccountingSettingsRead. -/
def ScopeAccountingSettingsRead : String := "accounting.settings.read"

/-- xero2.go var defaultScopes. -/
def defaultScopes : List String :=
  [ScopeOpenID, ScopeProfile, ScopeEmail, ScopeOfflineAccess, ScopeAccountingSettingsRead]

/-- The endpoint pair of an oauth2.Config. -/
structure OAuthEndpoint where
  AuthURL : String
  TokenURL : String
  deriving DecidableEq

/-- The fields of oauth2.Config that newConfig populates. -/
structure OAuthConfig where
  ClientID : String
  ClientSecret : String
  RedirectURL : String
  Endpoint : OAuthEndpoint
  Scopes : List String
  deriving DecidableEq

/-- The xero2 Provider: constructor arguments plus the derived oauth2 config. -/
structure Provider where
  ClientKey : String
  Secret : String
  CallbackURL : String
  providerName : String
  scopes : List String
  config : OAuthConfig

/-- xero2.go func scopesToStrings: appends a single trailing space to each
scope token. -/
def scopesToStrings (scopes : List String) : List String :=
  scopes.map (fun s => s ++ (" "))

/-- xero2.go func newConfig: fixed endpoints, caller scopes when non-empty,
otherwise the default scope set, in both cases space-suffixed. -/
def newConfig (clientKey secret callbackURL : String) (scopes : List String) : OAuthConfig :=
  let c : OAuthConfig :=
    { ClientID := clientKey
      ClientSecret := secret
      RedirectURL := callbackURL
      Endpoint := { AuthURL := authURL, TokenURL := tokenURL }
      Scopes := [] }
  if scopes.length > 0 then
    { c with Scopes := c.Scopes ++ scopesToStrings scopes }
  else
    { c with Scopes := c.Scopes ++ scopesToStrings defaultScopes }

/-- xero2.go func New. -/
def New (clientKey secret callbackURL : String) (scopes : List String) : Provider :=
  { ClientKey := clientKey
    Secret := secret
    CallbackURL := callbackURL
    providerName := Xero2.providerName
    scopes := scopes
    config := newConfig clientKey secret callbackURL scopes }

/-- xero2.go method Name. -/
def Provider.Name (p : Provider) : String := p.providerName

/-- xero2.go method SetName. -/
def Provider.SetName (p : Provider) (name : String) : Provider :=
  { p with providerName := name }

/-- Last field value wins, as in Go object decoding of duplicate keys. -/
def getField (fields : List (String × Json)) (key : String) : Option Json :=
  (fields.reverse.find? (fun kv => kv.1 == key)).map (fun kv => kv.2)

/-- Go decoding of one JSON object field into a string struct field: absent
or null leaves the zero value, a string is taken verbatim, anything else is
a type error. -/
def stringField (fields : List (String × Json)) (key : String) : Except String String :=
  match getField fields key with
  | Option.none => Except.ok ("")
  | Option.some Json.null => Except.ok ("")
  | Option.some (Json.str s) => Except.ok s
  | Option.some _ => Except.error ("json: cannot unmarshal value into Go string field")

/-- Go decoding of one tenant object (xero2.XeroTenant). -/
def decodeTenant (j : Json) : Except String XeroTenant :=
  match j with
  | Json.obj fields => do
    let i ← stringField fields ("id")
    let t ← stringField fields ("tenantId")
    let ty ← stringField fields ("tenantType")
    Except.ok { ID := i, TenantID := t, TenantType := ty }
  | _ => Except.error ("json: cannot unmarshal value into Go value of type xero2.XeroTenant")

/-- One element of the []*XeroTenant slice: a JSON null becomes a nil
pointer, modelled as Option.none. -/
def decodeTenantElem (j : Json) : Except String (Option XeroTenant) :=
  match j with
  | Json.null => Except.ok Option.none
  | _ => (decodeTenant j).map Option.some

/-- Go decoding of the tenants body into []*XeroTenant: a null body leaves
the nil slice, an array decodes elementwise. -/
def decodeTenants (j : Json) : Except String (List (Option XeroTenant)) :=
  match j with
  | Json.null => Except.ok []
  | Json.arr elems => elems.mapM decodeTenantElem
  | _ => Except.error ("json: cannot unmarshal value into Go slice of tenants")

/-- Go decoding of one organisation object (value type: a null element is the
zero organisation, not an error). -/
def decodeOrganization (j : Json) : Except String XeroOrganization :=
  match j with
  | Json.null =>
    Except.ok { Name := "", LegalName := "", OrganisationType := "", CountryCode := "", ShortCode := "" }
  | Json.obj fields => do
    let n ← stringField fields ("Name")
    let l ← stringField fields ("LegalName")
    let ot ← stringField fields ("OrganisationType")
    let cc ← stringField fields ("CountryCode")
    let sc ← stringField fields ("ShortCode")
    Except.ok { Name := n, LegalName := l, OrganisationType := ot, CountryCode := cc, ShortCode := sc }
  | _ => Except.error ("json: cannot unmarshal value into Go value of type xero2.XeroOrganization")

/-- First decode of the profile body, into user.RawData (a Go map): the body
must be a JSON object or null. -/
def decodeRawData (j : Json) : Except String (Option (List (String × Json))) :=
  match j with
  | Json.null => Except.ok Option.none
  | Json.obj fields => Except.ok (Option.some fields)
  | _ => Except.error ("json: cannot unmarshal value into Go map")

/-- Second decode of the profile body, into the anonymous struct holding the
Organisations slice: an absent or null field leaves the nil slice. -/
def decodeOrganisations (j : Json) : Except String (List XeroOrganization) :=
  match j with
  | Json.null => Except.ok []
  | Json.obj fields =>
    match getField fields ("Organisations") with
    | Option.none => Except.ok []
    | Option.some Json.null => Except.ok []
    | Option.some (Json.arr elems) => elems.mapM decodeOrganization
    | Option.some _ => Except.error ("json: cannot unmarshal value into Go field Organisations")
  | _ => Except.error ("json: cannot unmarshal value into Go struct")

/-- An outgoing HTTP request: method, URL and the headers set on it. -/
structure HttpRequest where
  method : String
  url : String
  headers : List (String × String)
  deriving DecidableEq

/-- What the injected transport returns for one request: a response with a
status and a body (Option.none marks bytes that are not valid JSON), or a
transport error. -/
inductive TransportResult where
  | resp (status : Nat) (body : Option Json) : TransportResult
  | transportErr (msg : String) : TransportResult

/-- Outcome of FetchUser: the Go pair (goth.User, error), plus a separate
constructor for a runtime panic, which in Go aborts instead of returning. -/
inductive FetchResult where
  | ok (user : User) : FetchResult
  | err (user : User) (msg : String) : FetchResult
  | crash (msg : String) : FetchResult

/-- Error text of the empty-access-token precondition (xero2.go line 114). -/
def noAccessTokenMsg (name : String) : String :=
  name ++ (" cannot get organization information without accessToken")

/-- Error text for a non-200 status on the tenants call (xero2.go line 179). -/
def tenantsStatusMsg (name : String) (status : Nat) : String :=
  name ++ (" responded with a ") ++ toString status ++ (" trying to fetch authorized xero tenants information")

/-- Error text for a non-200 status on the profile call (xero2.go line 215). -/
def profileStatusMsg (name : String) (status : Nat) : String :=
  name ++ (" responded with a ") ++ toString status ++ (" trying to fetch xero tenant information")

/-- Error text for an empty tenant list (xero2.go line 123). -/
def noTenantsMsg : String := "No authorized xero tenants found"

/-- Stand-in for the json error on a body that is not valid JSON. -/
def invalidBodyMsg : String := "invalid character in JSON body"

/-- Go runtime message for Organisations index 0 on an empty slice. -/
def indexPanicMsg : String := "runtime error: index out of range"

/-- Go runtime message for dereferencing a nil first tenant. -/
def nilPanicMsg : String := "runtime error: invalid memory address or nil pointer dereference"

/-- The request fetchAuthorizedTenants builds (xero2.go lines 162 and 166). -/
def tenantsRequest (sess : Session) : HttpRequest :=
  { method := "GET"
    url := tenantsURL
    headers := [(("Authorization"), ("Bearer ") ++ sess.AccessToken)] }

/-- The request fetchTenantInformation builds (xero2.go lines 197 to 202). -/
def profileRequest (sess : Session) (tenantID : String) : HttpRequest :=
  { method := "GET"
    url := endpointProfile
    headers := [(("Authorization"), ("Bearer ") ++ sess.AccessToken), (("Xero-Tenant-Id"), tenantID)] }

/-- The user record FetchUser builds before any network call
(xero2.go lines 105 to 110). -/
def initUser (p : Provider) (sess : Session) : User :=
  { AccessToken := sess.AccessToken
    Provider := p.Name
    RefreshToken := sess.RefreshToken
    ExpiresAt := sess.ExpiresAt
    Name := ""
    NickName := ""
    UserID := ""
    RawData := Option.none }

/-- Response handling of fetchAuthorizedTenants: status check, body read,
decode into the tenant slice (xero2.go lines 169 to 192). -/
def tenantsResponseResult (p : Provider) (tr : TransportResult) :
    Except String (List (Option XeroTenant)) :=
  match tr with
  | TransportResult.transportErr msg => Except.error msg
  | TransportResult.resp status body =>
    if status ≠ 200 then Except.error (tenantsStatusMsg p.providerName status)
    else
      match body with
      | Option.none => Except.error invalidBodyMsg
      | Option.some j => decodeTenants j

/-- xero2.go func fetchAuthorizedTenants.  Returns the decoded tenant list or
an error, paired with the single request issued. -/
def fetchAuthorizedTenants (p : Provider) (transport : HttpRequest → TransportResult)
    (sess : Session) : Except String (List (Option XeroTenant)) × List HttpRequest :=
  (tenantsResponseResult p (transport (tenantsRequest sess)), [tenantsRequest sess])

/-- Response handling of fetchTenantInformation: status check, then the body
is decoded twice, into RawData and into the typed Organisations view; index 0
of an empty Organisations slice is a runtime panic
(xero2.go lines 205 to 238). -/
def profileResponseResult (p : Provider) (user : User) (tr : TransportResult) : FetchResult :=
  match tr with
  | TransportResult.transportErr msg => FetchResult.err user msg
  | TransportResult.resp status body =>
    if status ≠ 200 then FetchResult.err user (profileStatusMsg p.providerName status)
    else
      match body with
      | Option.none => FetchResult.err user invalidBodyMsg
      | Option.some j =>
        match decodeRawData j with
        | Except.error e => FetchResult.err user e
        | Except.ok raw =>
          match decodeOrganisations j with
          | Except.error e => FetchResult.err { user with RawData := raw } e
          | Except.ok [] => FetchResult.crash indexPanicMsg
          | Except.ok (o :: _) =>
            FetchResult.ok { user with RawData := raw, Name := o.Name, NickName := o.LegalName, UserID := o.ShortCode }

/-- xero2.go func fetchTenantInformation. -/
def fetchTenantInformation (p : Provider) (transport : HttpRequest → TransportResult)
    (user : User) (sess : Session) (tenantID : String) : FetchResult × List HttpRequest :=
  (profileResponseResult p user (transport (profileRequest sess tenantID)), [profileRequest sess tenantID])

/-- xero2.go method FetchUser: precondition check, tenant discovery, then the
tenant-scoped profile fetch with the first tenant's id.  A nil first tenant
pointer is a runtime panic at tenants[0].TenantID. -/
def FetchUser (p : Provider) (transport : HttpRequest → TransportResult)
    (sess : Session) : FetchResult × List HttpRequest :=
  if sess.AccessToken = "" then
    (FetchResult.err (initUser p sess) (noAccessTokenMsg p.providerName), [])
  else
    match fetchAuthorizedTenants p transport sess with
    | (Except.error msg, reqs) => (FetchResult.err (initUser p sess) msg, reqs)
    | (Except.ok [], reqs) => (FetchResult.err (initUser p sess) noTenantsMsg, reqs)
    | (Except.ok (Option.none :: _), reqs) => (FetchResult.crash nilPanicMsg, reqs)
    | (Except.ok (Option.some t :: _), reqs) =>
      match fetchTenantInformation p transport (initUser p sess) sess t.TenantID with
      | (res, reqs2) => (res, reqs ++ reqs2)

/-! Concrete fixtures used by witnesses and counterexamples. -/

/-- A provider built as in the tests: New(key, secret, "/foo") with no scopes. -/
def sampleProvider : Provider := New ("key") ("secret") ("/foo") []

/-- A session holding an access token, as after a completed token exchange. -/
def sampleSession : Session :=
  { AuthURL := ""
    AccessToken := "tok"
    RefreshToken := "refresh"
    Hostname := ""
    HMAC := ""
    ExpiresAt := zeroTime }

/-- A fresh session: no access token yet. -/
def emptySession : Session :=
  { AuthURL := ""
    AccessToken := ""
    RefreshToken := ""
    Hostname := ""
    HMAC := ""
    ExpiresAt := zeroTime }

/-- A transport on which every request fails; used to show requests are not
even attempted on short-circuit paths. -/
def nullTransport : HttpRequest → TransportResult :=
  fun _ => TransportResult.transportErr ("no network")

/-- Transport: tenants call yields one tenant, profile call yields a profile
whose Organisations array is empty. -/
def emptyOrgsTransport : HttpRequest → TransportResult := fun r =>
  if r.url = tenantsURL then
    TransportResult.resp 200 (Option.some (Json.arr [Json.obj [(("tenantId"), Json.str ("tenant-1"))]]))
  else if r.url = endpointProfile then
    TransportResult.resp 200 (Option.some (Json.obj [(("Organisations"), Json.arr [])]))
  else TransportResult.transportErr ("unexpected request")

/-- Transport: tenants call yields the JSON array with a single null element. -/
def nullTenantTransport : HttpRequest → TransportResult := fun r =>
  if r.url = tenantsURL then TransportResult.resp 200 (Option.some (Json.arr [Json.null]))
  else TransportResult.transportErr ("unexpected request")

/-- Transport: tenants call yields the empty JSON array. -/
def noTenantsTransport : HttpRequest → TransportResult := fun r =>
  if r.url = tenantsURL then TransportResult.resp 200 (Option.some (Json.arr []))
  else TransportResult.transportErr ("unexpected request")

/-- Transport: tenants call is answered with a 500 status. -/
def badStatusTransport : HttpRequest → TransportResult := fun r =>
  if r.url = tenantsURL then TransportResult.resp 500 Option.none
  else TransportResult.transportErr ("unexpected request")

/-- Transport for the happy path: one tenant, one organisation. -/
def happyTransport : HttpRequest → TransportResult := fun r =>
  if r.url = tenantsURL then
    TransportResult.resp 200 (Option.some (Json.arr [Json.obj [(("tenantId"), Json.str ("tenant-1"))]]))
  else if r.url = endpointProfile then
    TransportResult.resp 200 (Option.some (Json.obj
      [(("Organisations"), Json.arr [Json.obj
        [(("Name"), Json.str ("Acme")), (("LegalName"), Json.str ("Acme Ltd")), (("ShortCode"), Json.str ("AC1"))]])]))
  else TransportResult.transportErr ("unexpected request")

/-! Helper lemmas shared between claims. -/

/-- fetchTenantInformation always issues exactly the profile request. -/
theorem fetchTenantInformation_trace (p : Provider) (transport : HttpRequest → TransportResult)
    (user : User) (sess : Session) (tenantID : String) :
    (fetchTenantInformation p transport user sess tenantID).2 = [profileRequest sess tenantID] := rfl

/-- On every error value of profileResponseResult, the user record keeps the
token, refresh token, expiry and provider fields it was given. -/
theorem profileResponseResult_err_fields (p : Provider) (user : User) (tr : TransportResult)
    (u : User) (msg : String)
    (h : profileResponseResult p user tr = FetchResult.err u msg) :
    u.AccessToken = user.AccessToken ∧ u.RefreshToken = user.RefreshToken ∧
      u.ExpiresAt = user.ExpiresAt ∧ u.Provider = user.Provider := by
  unfold profileResponseResult at h
  repeat' split at h
  all_goals
    first
      | (injection h with h1 h2; subst h1; exact ⟨rfl, rfl, rfl, rfl⟩)
      | exact FetchResult.noConfusion h

/-! Claim theorems. -/

/-- C7: a provider constructed with an empty scope list gets exactly the five
default scopes openid, profile, email, offline_access and
accounting.settings.read, in that order, each with a single trailing space
appended. -/
theorem C7_default_scopes_with_trailing_space (clientKey secret callbackURL : String) :
    (New clientKey secret callbackURL []).config.Scopes =
      [("openid "), ("profile "), ("email "), ("offline_access "), ("accounting.settings.read ")] := rfl

/-- C3: FetchUser on a session with an empty access token fails with the
no-access-token error and issues no network request at all. -/
theorem C3_empty_token_no_network (p : Provider) (transport : HttpRequest → TransportResult)
    (sess : Session) (h : sess.AccessToken = "") :
    FetchUser p transport sess =
      (FetchResult.err (initUser p sess) (noAccessTokenMsg p.providerName), []) := by
  unfold FetchUser
  rw [if_pos h]

/-- C3 witness: the fresh session has an empty access token and the theorem
instantiates there: the error is returned and the request trace is empty. -/
theorem C3_empty_token_no_network_witness :
    FetchUser sampleProvider nullTransport emptySession =
      (FetchResult.err (initUser sampleProvider emptySession) (noAccessTokenMsg (("xero2"))), []) :=
  C3_empty_token_no_network sampleProvider nullTransport emptySession rfl

/-- C4: when the tenant-discovery response has status 200 and decodes to an
empty tenant list, FetchUser fails with the no-authorized-tenants error, the
only request issued is the tenant-discovery one, and that request does not go
to the profile endpoint. -/
theorem C4_empty_tenants_no_profile_call (p : Provider) (transport : HttpRequest → TransportResult)
    (sess : Session) (j : Json)
    (hTok : sess.AccessToken ≠ "")
    (hResp : transport (tenantsRequest sess) = TransportResult.resp 200 (Option.some j))
    (hDec : decodeTenants j = Except.ok []) :
    FetchUser p transport sess =
      (FetchResult.err (initUser p sess) noTenantsMsg, [tenantsRequest sess]) ∧
      (tenantsRequest sess).url ≠ endpointProfile := by
  constructor
  · unfold FetchUser fetchAuthorizedTenants tenantsResponseResult
    rw [if_neg hTok, hResp]
    simp [hDec]
  · show tenantsURL ≠ endpointProfile
    decide

/-- C4 witness: on a transport whose tenants endpoint answers 200 with the
empty JSON array, the theorem instantiates at the sample session. -/
theorem C4_empty_tenants_no_profile_call_witness :
    FetchUser sampleProvider noTenantsTransport sampleSession =
      (FetchResult.err (initUser sampleProvider sampleSession) noTenantsMsg, [tenantsRequest sampleSession]) ∧
      (tenantsRequest sampleSession).url ≠ endpointProfile :=
  C4_empty_tenants_no_profile_call sampleProvider noTenantsTransport sampleSession
    (Json.arr []) (by decide) rfl rfl

/-- C1: evaluation of the code at the failing input.  With one authorized
tenant and a 200 profile response whose Organisations array is empty,
FetchUser reaches Organisations index 0 on an empty slice and crashes with a
runtime index-out-of-range panic instead of returning the explicit
no-organizations error the spec requires. -/
theorem C1_empty_organisations_crashes :
    FetchUser sampleProvider emptyOrgsTransport sampleSession =
      (FetchResult.crash indexPanicMsg,
        [tenantsRequest sampleSession, profileRequest sampleSession (("tenant-1"))]) := rfl

/-- C5 counterexample: a tenant-discovery body of a single JSON null decodes
to a non-empty tenant list (one nil pointer), yet no profile request is ever
issued: FetchUser crashes dereferencing the nil first tenant, and the only
request in the trace is the tenant-discovery one. -/
theorem C5_nil_first_tenant_counterexample :
    decodeTenants (Json.arr [Json.null]) = Except.ok [Option.none] ∧
      [(Option.none : Option XeroTenant)] ≠ [] ∧
      FetchUser sampleProvider nullTenantTransport sampleSession =
        (FetchResult.crash nilPanicMsg, [tenantsRequest sampleSession]) ∧
      (tenantsRequest sampleSession).url ≠ endpointProfile := by
  refine ⟨rfl, by decide, rfl, ?_⟩
  show tenantsURL ≠ endpointProfile
  decide

/-- C5 amended: when the decoded tenant list is non-empty and its first
element is a non-null tenant, FetchUser issues exactly the tenant-discovery
request followed by the profile request; both carry the same bearer access
token, and the profile request additionally carries the Xero-Tenant-Id header
set to the first tenant's TenantID. -/
theorem C5_profile_request_headers (p : Provider) (transport : HttpRequest → TransportResult)
    (sess : Session) (j : Json) (t : XeroTenant) (rest : List (Option XeroTenant))
    (hTok : sess.AccessToken ≠ "")
    (hResp : transport (tenantsRequest sess) = TransportResult.resp 200 (Option.some j))
    (hDec : decodeTenants j = Except.ok (Option.some t :: rest)) :
    (FetchUser p transport sess).2 = [tenantsRequest sess, profileRequest sess t.TenantID] ∧
      (tenantsRequest sess).headers = [(("Authorization"), ("Bearer ") ++ sess.AccessToken)] ∧
      (profileRequest sess t.TenantID).headers =
        [(("Authorization"), ("Bearer ") ++ sess.AccessToken), (("Xero-Tenant-Id"), t.TenantID)] := by
  refine ⟨?_, rfl, rfl⟩
  have h200 : ¬ ((200 : Nat) ≠ 200) := fun h => h rfl
  unfold FetchUser fetchAuthorizedTenants tenantsResponseResult
  rw [if_neg hTok, hResp]
  dsimp only
  rw [if_neg h200]
  simp only [hDec]
  simp [fetchTenantInformation]

/-- C5 amended witness: instantiated on the happy-path transport with tenant
id tenant-1 and the sample session. -/
theorem C5_profile_request_headers_witness :
    (FetchUser sampleProvider happyTransport sampleSession).2 =
        [tenantsRequest sampleSession, profileRequest sampleSession (("tenant-1"))] ∧
      (tenantsRequest sampleSession).headers = [(("Authorization"), ("Bearer tok"))] ∧
      (profileRequest sampleSession (("tenant-1"))).headers =
        [(("Authorization"), ("Bearer tok")), (("Xero-Tenant-Id"), ("tenant-1"))] :=
  C5_profile_request_headers sampleProvider happyTransport sampleSession
    (Json.arr [Json.obj [(("tenantId"), Json.str ("tenant-1"))]])
    { ID := "", TenantID := "tenant-1", TenantType := "" } [] (by decide) rfl rfl

/-- C2: on a run in which both calls return 200 and the profile body decodes
to a non-empty organisations list, FetchUser succeeds and the returned record
takes Name, NickName and UserID from the first organisation's Name, LegalName
and ShortCode. -/
theorem C2_first_organisation_fields (p : Provider) (transport : HttpRequest → TransportResult)
    (sess : Session) (jt : Json) (t : XeroTenant) (trest : List (Option XeroTenant))
    (jp : Json) (raw : Option (List (String × Json))) (o : XeroOrganization) (orest : List XeroOrganization)
    (hTok : sess.AccessToken ≠ "")
    (hT : transport (tenantsRequest sess) = TransportResult.resp 200 (Option.some jt))
    (hTd : decodeTenants jt = Except.ok (Option.some t :: trest))
    (hP : transport (profileRequest sess t.TenantID) = TransportResult.resp 200 (Option.some jp))
    (hRaw : decodeRawData jp = Except.ok raw)
    (hOrg : decodeOrganisations jp = Except.ok (o :: orest)) :
    FetchUser p transport sess =
      (FetchResult.ok { initUser p sess with
          RawData := raw, Name := o.Name, NickName := o.LegalName, UserID := o.ShortCode },
        [tenantsRequest sess, profileRequest sess t.TenantID]) := by
  have h200 : ¬ ((200 : Nat) ≠ 200) := fun h => h rfl
  have hft : fetchTenantInformation p transport (initUser p sess) sess t.TenantID =
      (FetchResult.ok { initUser p sess with
          RawData := raw, Name := o.Name, NickName := o.LegalName, UserID := o.ShortCode },
        [profileRequest sess t.TenantID]) := by
    unfold fetchTenantInformation profileResponseResult
    rw [hP]
    dsimp only
    rw [if_neg h200]
    simp [hRaw, hOrg]
  unfold FetchUser fetchAuthorizedTenants tenantsResponseResult
  rw [if_neg hTok, hT]
  dsimp only
  rw [if_neg h200]
  simp only [hTd]
  rw [hft]
  simp

/-- C2 witness: on the happy-path transport the sample session resolves to
the first organisation Acme / Acme Ltd / AC1. -/
theorem C2_first_organisation_fields_witness :
    FetchUser sampleProvider happyTransport sampleSession =
      (FetchResult.ok { initUser sampleProvider sampleSession with
          RawData := Option.some
            [(("Organisations"), Json.arr [Json.obj
              [(("Name"), Json.str ("Acme")), (("LegalName"), Json.str ("Acme Ltd")), (("ShortCode"), Json.str ("AC1"))]])]
          Name := "Acme", NickName := "Acme Ltd", UserID := "AC1" },
        [tenantsRequest sampleSession, profileRequest sampleSession (("tenant-1"))]) :=
  C2_first_organisation_fields sampleProvider happyTransport sampleSession
    (Json.arr [Json.obj [(("tenantId"), Json.str ("tenant-1"))]])
    { ID := "", TenantID := "tenant-1", TenantType := "" } []
    (Json.obj [(("Organisations"), Json.arr [Json.obj
      [(("Name"), Json.str ("Acme")), (("LegalName"), Json.str ("Acme Ltd")), (("ShortCode"), Json.str ("AC1"))]])])
    (Option.some [(("Organisations"), Json.arr [Json.obj
      [(("Name"), Json.str ("Acme")), (("LegalName"), Json.str ("Acme Ltd")), (("ShortCode"), Json.str ("AC1"))]])])
    { Name := "Acme", LegalName := "Acme Ltd", OrganisationType := "", CountryCode := "", ShortCode := "AC1" } []
    (by decide) rfl rfl rfl rfl rfl

/-- C10: whenever FetchUser returns an error, the user record returned with
it carries the session's access token, refresh token and expiry, and the
provider's current registered name. -/
theorem C10_error_record_keeps_session_fields (p : Provider) (transport : HttpRequest → TransportResult)
    (sess : Session) (u : User) (msg : String) (reqs : List HttpRequest)
    (h : FetchUser p transport sess = (FetchResult.err u msg, reqs)) :
    u.AccessToken = sess.AccessToken ∧ u.RefreshToken = sess.RefreshToken ∧
      u.ExpiresAt = sess.ExpiresAt ∧ u.Provider = p.providerName := by
  unfold FetchUser at h
  split at h
  · injection h with h1 h2
    injection h1 with hu hm
    subst hu
    exact ⟨rfl, rfl, rfl, rfl⟩
  · split at h
    · injection h with h1 h2
      injection h1 with hu hm
      subst hu
      exact ⟨rfl, rfl, rfl, rfl⟩
    · injection h with h1 h2
      injection h1 with hu hm
      subst hu
      exact ⟨rfl, rfl, rfl, rfl⟩
    · injection h with h1 h2
      exact FetchResult.noConfusion h1
    · dsimp only [fetchTenantInformation] at h
      injection h with h1 h2
      exact profileResponseResult_err_fields p (initUser p sess) _ u msg h1

/-- C10 witness: on the empty-token error path at the concrete fresh session
the record keeps the session fields and the registered name. -/
theorem C10_error_record_keeps_session_fields_witness :
    (initUser sampleProvider emptySession).AccessToken = emptySession.AccessToken ∧
      (initUser sampleProvider emptySession).RefreshToken = emptySession.RefreshToken ∧
      (initUser sampleProvider emptySession).ExpiresAt = emptySession.ExpiresAt ∧
      (initUser sampleProvider emptySession).Provider = sampleProvider.providerName :=
  C10_error_record_keeps_session_fields sampleProvider nullTransport emptySession
    (initUser sampleProvider emptySession) (noAccessTokenMsg (("xero2"))) [] rfl

/-- The provider name is a prefix, hence a substring, of any message formed
by appending to it. -/
theorem data_infix_append_left (s x : String) : s.data <:+: (s ++ x).data := by
  rw [String.data_append]
  exact (List.prefix_append s.data x.data).isInfix

/-- C8 counterexample: on the empty-tenant-list path the error message is the
fixed string No authorized xero tenants found, which does not contain the
provider's registered name xero2 as a substring. -/
theorem C8_no_tenants_message_lacks_provider_name :
    FetchUser sampleProvider noTenantsTransport sampleSession =
      (FetchResult.err (initUser sampleProvider sampleSession) noTenantsMsg, [tenantsRequest sampleSession]) ∧
      sampleProvider.providerName = ("xero2") ∧
      ¬ (sampleProvider.providerName.data <:+: noTenantsMsg.data) := by
  refine ⟨rfl, rfl, ?_⟩
  show ¬ (("xero2").data <:+: ("No authorized xero tenants found").data)
  decide

/-- C8 amended: the missing-access-token error and the non-200 errors of both
network calls carry messages containing the provider's current registered
name, and the two status messages always differ, so the failing call is
identifiable; the empty-tenant-list error instead is the fixed message
No authorized xero tenants found, which does not name the provider. -/
theorem C8_error_messages_identify_provider_and_step :
    (∀ (p : Provider) (transport : HttpRequest → TransportResult) (sess : Session),
      sess.AccessToken = "" →
        (FetchUser p transport sess).1 =
            FetchResult.err (initUser p sess) (noAccessTokenMsg p.providerName) ∧
          p.providerName.data <:+: (noAccessTokenMsg p.providerName).data) ∧
    (∀ (p : Provider) (transport : HttpRequest → TransportResult) (sess : Session)
        (status : Nat) (body : Option Json),
      sess.AccessToken ≠ "" →
        transport (tenantsRequest sess) = TransportResult.resp status body → status ≠ 200 →
        (FetchUser p transport sess).1 =
            FetchResult.err (initUser p sess) (tenantsStatusMsg p.providerName status) ∧
          p.providerName.data <:+: (tenantsStatusMsg p.providerName status).data) ∧
    (∀ (p : Provider) (transport : HttpRequest → TransportResult) (sess : Session)
        (jt : Json) (t : XeroTenant) (trest : List (Option XeroTenant)) (status : Nat) (body : Option Json),
      sess.AccessToken ≠ "" →
        transport (tenantsRequest sess) = TransportResult.resp 200 (Option.some jt) →
        decodeTenants jt = Except.ok (Option.some t :: trest) →
        transport (profileRequest sess t.TenantID) = TransportResult.resp status body → status ≠ 200 →
        (FetchUser p transport sess).1 =
            FetchResult.err (initUser p sess) (profileStatusMsg p.providerName status) ∧
          p.providerName.data <:+: (profileStatusMsg p.providerName status).data) ∧
    (∀ (name : String) (status : Nat), tenantsStatusMsg name status ≠ profileStatusMsg name status) ∧
    (∀ (p : Provider) (transport : HttpRequest → TransportResult) (sess : Session) (jt : Json),
      sess.AccessToken ≠ "" →
        transport (tenantsRequest sess) = TransportResult.resp 200 (Option.some jt) →
        decodeTenants jt = Except.ok [] →
        (FetchUser p transport sess).1 = FetchResult.err (initUser p sess) noTenantsMsg) := by
  refine ⟨?_, ?_, ?_, ?_, ?_⟩
  · intro p transport sess h
    constructor
    · unfold FetchUser
      rw [if_pos h]
    · exact data_infix_append_left p.providerName _
  · intro p transport sess status body hTok hResp hStatus
    constructor
    · unfold FetchUser fetchAuthorizedTenants tenantsResponseResult
      rw [if_neg hTok, hResp]
      dsimp only
      rw [if_pos hStatus]
    · unfold tenantsStatusMsg
      rw [String.append_assoc, String.append_assoc]
      exact data_infix_append_left p.providerName _
  · intro p transport sess jt t trest status body hTok hT hTd hP hStatus
    have h200 : ¬ ((200 : Nat) ≠ 200) := fun hc => hc rfl
    constructor
    · unfold FetchUser fetchAuthorizedTenants tenantsResponseResult
      rw [if_neg hTok, hT]
      dsimp only
      rw [if_neg h200]
      simp only [hTd]
      dsimp only [fetchTenantInformation]
      unfold profileResponseResult
      rw [hP]
      dsimp only
      rw [if_pos hStatus]
    · unfold profileStatusMsg
      rw [String.append_assoc, String.append_assoc]
      exact data_infix_append_left p.providerName _
  · intro name status h
    have hl := congrArg String.length h
    rw [tenantsStatusMsg, profileStatusMsg] at hl
    simp only [String.length_append] at hl
    have e1 : (" trying to fetch authorized xero tenants information").length = 52 := rfl
    have e2 : (" trying to fetch xero tenant information").length = 40 := rfl
    rw [e1, e2] at hl
    omega
  · intro p transport sess jt hTok hResp hDec
    have h200 : ¬ ((200 : Nat) ≠ 200) := fun hc => hc rfl
    unfold FetchUser fetchAuthorizedTenants tenantsResponseResult
    rw [if_neg hTok, hResp]
    dsimp only
    rw [if_neg h200]
    simp [hDec]

/-- C8 witness: a 500 on the tenants call at the concrete sample session: the
message carries the registered name xero2 as a substring. -/
theorem C8_error_messages_identify_provider_and_step_witness :
    (FetchUser sampleProvider badStatusTransport sampleSession).1 =
        FetchResult.err (initUser sampleProvider sampleSession) (tenantsStatusMsg (("xero2")) 500) ∧
      ("xero2").data <:+: (tenantsStatusMsg (("xero2")) 500).data :=
  C8_error_messages_identify_provider_and_step.2.1 sampleProvider badStatusTransport sampleSession
    500 Option.none (by decide) rfl (by decide)

/-!
Session serialization layer.  providers/xero2/session.go is not part of the
repository snapshot (only its tests are), so Marshal/Unmarshal are modelled
from the spec: Marshal is the deterministic JSON serialization of the five
serialized fields in the fixed order AuthURL, AccessToken, Hostname, HMAC,
ExpiresAt (RFC3339, trailing Z), with all zero values present, exactly as
pinned by Test_ToJSON; Unmarshal parses one JSON object from the front of
the text, assigning known keys and ignoring unknown ones, and tolerates any
trailing characters after the closing delimiter, as pinned by
Test_SessionFromJSON.
-/

/-- Modelled from the spec: the decimal digit character of n mod 10. -/
def digitChar (n : Nat) : Char :=
  if n % 10 = 0 then '0' else if n % 10 = 1 then '1' else if n % 10 = 2 then '2'
  else if n % 10 = 3 then '3' else if n % 10 = 4 then '4' else if n % 10 = 5 then '5'
  else if n % 10 = 6 then '6' else if n % 10 = 7 then '7' else if n % 10 = 8 then '8' else '9'

/-- Modelled from the spec: the numeric value of a decimal digit character. -/
def digitVal (c : Char) : Option Nat :=
  if c = '0' then Option.some 0 else if c = '1' then Option.some 1
  else if c = '2' then Option.some 2 else if c = '3' then Option.some 3
  else if c = '4' then Option.some 4 else if c = '5' then Option.some 5
  else if c = '6' then Option.some 6 else if c = '7' then Option.some 7
  else if c = '8' then Option.some 8 else if c = '9' then Option.some 9
  else Option.none

/-- Modelled from the spec: the lowercase hexadecimal digit of n mod 16. -/
def hexDigitChar (n : Nat) : Char :=
  if n % 16 = 10 then 'a' else if n % 16 = 11 then 'b' else if n % 16 = 12 then 'c'
  else if n % 16 = 13 then 'd' else if n % 16 = 14 then 'e' else if n % 16 = 15 then 'f'
  else digitChar (n % 16)

/-- Modelled from the spec: the numeric value of a hexadecimal digit, either
case accepted. -/
def hexVal (c : Char) : Option Nat :=
  if c = 'a' ∨ c = 'A' then Option.some 10 else if c = 'b' ∨ c = 'B' then Option.some 11
  else if c = 'c' ∨ c = 'C' then Option.some 12 else if c = 'd' ∨ c = 'D' then Option.some 13
  else if c = 'e' ∨ c = 'E' then Option.some 14 else if c = 'f' ∨ c = 'F' then Option.some 15
  else digitVal c

theorem digitVal_digitChar (n : Nat) : digitVal (digitChar n) = Option.some (n % 10) := by
  have h : n % 10 = 0 ∨ n % 10 = 1 ∨ n % 10 = 2 ∨ n % 10 = 3 ∨ n % 10 = 4 ∨ n % 10 = 5 ∨
      n % 10 = 6 ∨ n % 10 = 7 ∨ n % 10 = 8 ∨ n % 10 = 9 := by omega
  rcases h with h|h|h|h|h|h|h|h|h|h <;> simp [digitChar, digitVal, h]

theorem hexVal_hexDigitChar (n : Nat) : hexVal (hexDigitChar n) = Option.some (n % 16) := by
  have h : n % 16 = 0 ∨ n % 16 = 1 ∨ n % 16 = 2 ∨ n % 16 = 3 ∨ n % 16 = 4 ∨ n % 16 = 5 ∨
      n % 16 = 6 ∨ n % 16 = 7 ∨ n % 16 = 8 ∨ n % 16 = 9 ∨ n % 16 = 10 ∨ n % 16 = 11 ∨
      n % 16 = 12 ∨ n % 16 = 13 ∨ n % 16 = 14 ∨ n % 16 = 15 := by omega
  have h10 : (10 : Nat) % 10 = 0 := rfl
  rcases h with h|h|h|h|h|h|h|h|h|h|h|h|h|h|h|h <;>
    simp [hexDigitChar, hexVal, digitChar, digitVal, h]

/-- Modelled from the spec: two-digit zero-padded decimal rendering. -/
def pad2 (n : Nat) : List Char := [digitChar (n / 10), digitChar n]

/-- Modelled from the spec: four-digit zero-padded decimal rendering. -/
def pad4 (n : Nat) : List Char :=
  [digitChar (n / 1000), digitChar (n / 100), digitChar (n / 10), digitChar n]

/-- Modelled from the spec: RFC3339 rendering of a UTC time at second
granularity, as Go formats time.Time for the serialized session. -/
def formatTime (t : GoTime) : List Char :=
  pad4 t.year ++ '-' :: pad2 t.month ++ '-' :: pad2 t.day ++ 'T' :: pad2 t.hour
    ++ ':' :: pad2 t.minute ++ ':' :: pad2 t.second ++ ['Z']

/-- The time value recovered by parsing a rendered time: every field reduced
modulo its rendered width. -/
def truncTime (t : GoTime) : GoTime :=
  { year := t.year % 10000, month := t.month % 100, day := t.day % 100,
    hour := t.hour % 100, minute := t.minute % 100, second := t.second % 100 }

/-- A Go time.Time always carries fields inside their rendered widths. -/
def GoTime.WF (t : GoTime) : Prop :=
  t.year < 10000 ∧ t.month < 100 ∧ t.day < 100 ∧ t.hour < 100 ∧ t.minute < 100 ∧ t.second < 100

instance (t : GoTime) : Decidable t.WF := by
  unfold GoTime.WF
  infer_instance

theorem truncTime_eq_of_WF (t : GoTime) (h : t.WF) : truncTime t = t := by
  cases t with
  | mk y mo d hh mi s =>
    unfold GoTime.WF at h
    dsimp only at h
    obtain ⟨h1, h2, h3, h4, h5, h6⟩ := h
    unfold truncTime
    dsimp only
    simp only [GoTime.mk.injEq]
    exact ⟨Nat.mod_eq_of_lt h1, Nat.mod_eq_of_lt h2, Nat.mod_eq_of_lt h3,
      Nat.mod_eq_of_lt h4, Nat.mod_eq_of_lt h5, Nat.mod_eq_of_lt h6⟩

theorem digitChar_congr (m m' : Nat) (h : m % 10 = m' % 10) : digitChar m = digitChar m' := by
  unfold digitChar
  rw [h]

theorem formatTime_truncTime (t : GoTime) : formatTime (truncTime t) = formatTime t := by
  unfold formatTime truncTime pad4 pad2
  rw [digitChar_congr (t.year % 10000 / 1000) (t.year / 1000) (by omega),
    digitChar_congr (t.year % 10000 / 100) (t.year / 100) (by omega),
    digitChar_congr (t.year % 10000 / 10) (t.year / 10) (by omega),
    digitChar_congr (t.year % 10000) t.year (by omega),
    digitChar_congr (t.month % 100 / 10) (t.month / 10) (by omega),
    digitChar_congr (t.month % 100) t.month (by omega),
    digitChar_congr (t.day % 100 / 10) (t.day / 10) (by omega),
    digitChar_congr (t.day % 100) t.day (by omega),
    digitChar_congr (t.hour % 100 / 10) (t.hour / 10) (by omega),
    digitChar_congr (t.hour % 100) t.hour (by omega),
    digitChar_congr (t.minute % 100 / 10) (t.minute / 10) (by omega),
    digitChar_congr (t.minute % 100) t.minute (by omega),
    digitChar_congr (t.second % 100 / 10) (t.second / 10) (by omega),
    digitChar_congr (t.second % 100) t.second (by omega)]

/-- Modelled from the spec: JSON string escaping of one character.  The
quote and the backslash are escaped with a backslash, control characters
with a \u00XX sequence, and every other character stands for itself. -/
def escChar (c : Char) : List Char :=
  if c = '\\' then ['\\', '\\']
  else if c = '\"' then ['\\', '\"']
  else if c.toNat < 32 then ['\\', 'u', '0', '0', hexDigitChar (c.toNat / 16), hexDigitChar (c.toNat % 16)]
  else [c]

/-- Escape every character of a list in order. -/
def escapeList : List Char → List Char
  | [] => []
  | c :: cs => escChar c ++ escapeList cs

/-- A JSON string literal for s, written onto a continuation list. -/
def escStrOnto (s : String) (rest : List Char) : List Char :=
  '\"' :: (escapeList s.data ++ ('\"' :: rest))

/-- The RFC3339 text of a time as a String. -/
def timeString (t : GoTime) : String := String.mk (formatTime t)

/-- The five serialized session fields in their fixed order, written onto a
continuation list. -/
def fieldsOnto (s : Session) (rest : List Char) : List Char :=
  escStrOnto ("AuthURL") (':' :: escStrOnto s.AuthURL (',' ::
    escStrOnto ("AccessToken") (':' :: escStrOnto s.AccessToken (',' ::
    escStrOnto ("Hostname") (':' :: escStrOnto s.Hostname (',' ::
    escStrOnto ("HMAC") (':' :: escStrOnto s.HMAC (',' ::
    escStrOnto ("ExpiresAt") (':' :: escStrOnto (timeString s.ExpiresAt) ('\x7d' :: rest))))))))))

/-- The full serialized session written onto a continuation list. -/
def marshalOnto (s : Session) (rest : List Char) : List Char :=
  '\x7b' :: fieldsOnto s rest

/-- Modelled from the spec: Session.Marshal, the deterministic total JSON
serialization of the session with the fixed field order
AuthURL, AccessToken, Hostname, HMAC, ExpiresAt.  RefreshToken is not part
of the serialized form (Test_ToJSON pins the exact output). -/
def Session.Marshal (s : Session) : String := String.mk (marshalOnto s [])

/-- Sanity check against Test_ToJSON: the zero session serializes exactly to
the string the test expects. -/
theorem Marshal_zero_session :
    Session.Marshal emptySession =
      ("\x7b\"AuthURL\":\"\",\"AccessToken\":\"\",\"Hostname\":\"\",\"HMAC\":\"\",\"ExpiresAt\":\"0001-01-01T00:00:00Z\"\x7d") := rfl

/-- The single error kind of Unmarshal on malformed input. -/
inductive UnmarshalError where
  | ErrorDeserialize : UnmarshalError
  deriving DecidableEq

/-- Modelled from the spec: the body of a JSON string literal, read after
its opening quote up to the unescaped closing quote; backslash escapes for
the backslash, the quote and \uXXXX sequences are decoded. -/
def parseStringBody : List Char → Option (List Char × List Char)
  | [] => Option.none
  | c :: rest =>
    if c = '\"' then Option.some ([], rest)
    else if c = '\\' then
      match rest with
      | [] => Option.none
      | e :: rest2 =>
        if e = '\\' then (parseStringBody rest2).map (fun pr => ('\\' :: pr.1, pr.2))
        else if e = '\"' then (parseStringBody rest2).map (fun pr => ('\"' :: pr.1, pr.2))
        else if e = 'u' then
          match rest2 with
          | h1 :: h2 :: h3 :: h4 :: rest3 =>
            match hexVal h1, hexVal h2, hexVal h3, hexVal h4 with
            | Option.some a, Option.some b, Option.some c2, Option.some d =>
              (parseStringBody rest3).map
                (fun pr => (Char.ofNat (((a * 16 + b) * 16 + c2) * 16 + d) :: pr.1, pr.2))
            | _, _, _, _ => Option.none
          | _ => Option.none
        else Option.none
    else (parseStringBody rest).map (fun pr => (c :: pr.1, pr.2))

/-- Two decimal digits. -/
def parse2 : List Char → Option (Nat × List Char)
  | a :: b :: rest =>
    match digitVal a, digitVal b with
    | Option.some x, Option.some y => Option.some (x * 10 + y, rest)
    | _, _ => Option.none
  | _ => Option.none

/-- Four decimal digits. -/
def parse4 : List Char → Option (Nat × List Char)
  | a :: b :: c :: d :: rest =>
    match digitVal a, digitVal b, digitVal c, digitVal d with
    | Option.some w, Option.some x, Option.some y, Option.some z =>
      Option.some (((w * 10 + x) * 10 + y) * 10 + z, rest)
    | _, _, _, _ => Option.none
  | _ => Option.none

/-- Consume one expected character. -/
def expectChar (c : Char) : List Char → Option (List Char)
  | x :: rest => if x = c then Option.some rest else Option.none
  | [] => Option.none

/-- Modelled from the spec: parse an RFC3339 UTC timestamp at second
granularity. -/
def parseTimeChars (l : List Char) : Option (GoTime × List Char) :=
  match parse4 l with
  | Option.none => Option.none
  | Option.some (y, l1) =>
  match expectChar '-' l1 with
  | Option.none => Option.none
  | Option.some l2 =>
  match parse2 l2 with
  | Option.none => Option.none
  | Option.some (mo, l3) =>
  match expectChar '-' l3 with
  | Option.none => Option.none
  | Option.some l4 =>
  match parse2 l4 with
  | Option.none => Option.none
  | Option.some (d, l5) =>
  match expectChar 'T' l5 with
  | Option.none => Option.none
  | Option.some l6 =>
  match parse2 l6 with
  | Option.none => Option.none
  | Option.some (h, l7) =>
  match expectChar ':' l7 with
  | Option.none => Option.none
  | Option.some l8 =>
  match parse2 l8 with
  | Option.none => Option.none
  | Option.some (mi, l9) =>
  match expectChar ':' l9 with
  | Option.none => Option.none
  | Option.some l10 =>
  match parse2 l10 with
  | Option.none => Option.none
  | Option.some (s, l11) =>
  match expectChar 'Z' l11 with
  | Option.none => Option.none
  | Option.some l12 =>
    Option.some ({ year := y, month := mo, day := d, hour := h, minute := mi, second := s }, l12)

/-- Parse a whole string as an RFC3339 timestamp. -/
def parseTime (s : String) : Except UnmarshalError GoTime :=
  match parseTimeChars s.data with
  | Option.some (t, []) => Except.ok t
  | _ => Except.error UnmarshalError.ErrorDeserialize

/-- Modelled from the spec: one JSON field value.  A string literal yields
its decoded text; a non-string primitive is skipped and yields no text;
nothing parseable is a deserialization error. -/
def parseValue (l : List Char) : Except UnmarshalError (Option String × List Char) :=
  match l with
  | [] => Except.error UnmarshalError.ErrorDeserialize
  | c :: rest =>
    if c = '\"' then
      match parseStringBody rest with
      | Option.some (chars, r2) => Except.ok (Option.some (String.mk chars), r2)
      | Option.none => Except.error UnmarshalError.ErrorDeserialize
    else
      match (c :: rest).takeWhile (fun ch => !(ch == ',' || ch == '\x7d')) with
      | [] => Except.error UnmarshalError.ErrorDeserialize
      | prim => Except.ok (Option.none, (c :: rest).drop prim.length)

/-- Modelled from the spec: assign one decoded field to the session under
construction.  Known keys require a string value (ExpiresAt additionally an
RFC3339 timestamp); unknown keys are ignored, as Go json does. -/
def applyField (acc : Session) (key : String) (v : Option String) : Except UnmarshalError Session :=
  if key = ("AuthURL") then
    match v with
    | Option.some s => Except.ok { acc with AuthURL := s }
    | Option.none => Except.error UnmarshalError.ErrorDeserialize
  else if key = ("AccessToken") then
    match v with
    | Option.some s => Except.ok { acc with AccessToken := s }
    | Option.none => Except.error UnmarshalError.ErrorDeserialize
  else if key = ("Hostname") then
    match v with
    | Option.some s => Except.ok { acc with Hostname := s }
    | Option.none => Except.error UnmarshalError.ErrorDeserialize
  else if key = ("HMAC") then
    match v with
    | Option.some s => Except.ok { acc with HMAC := s }
    | Option.none => Except.error UnmarshalError.ErrorDeserialize
  else if key = ("ExpiresAt") then
    match v with
    | Option.some s =>
      match parseTime s with
      | Except.ok t => Except.ok { acc with ExpiresAt := t }
      | Except.error e => Except.error e
    | Option.none => Except.error UnmarshalError.ErrorDeserialize
  else Except.ok acc

/-- Modelled from the spec: the field loop of the object parser.  Each
iteration reads a quoted key, a colon, a value, and then either a comma (and
continues) or the closing delimiter (and stops, returning the rest of the
input unread).  The fuel only bounds the number of fields and is always
supplied larger than the input length, so it never cuts a real parse short. -/
def parseFields : Nat → Session → List Char → Except UnmarshalError (Session × List Char)
  | 0, _, _ => Except.error UnmarshalError.ErrorDeserialize
  | Nat.succ fuel, acc, l =>
    match l with
    | [] => Except.error UnmarshalError.ErrorDeserialize
    | c :: rest =>
      if c = '\"' then
        match parseStringBody rest with
        | Option.none => Except.error UnmarshalError.ErrorDeserialize
        | Option.some (keyChars, r1) =>
          match expectChar ':' r1 with
          | Option.none => Except.error UnmarshalError.ErrorDeserialize
          | Option.some r2 =>
            match parseValue r2 with
            | Except.error e => Except.error e
            | Except.ok (v, r3) =>
              match applyField acc (String.mk keyChars) v with
              | Except.error e => Except.error e
              | Except.ok acc2 =>
                match r3 with
                | c2 :: r4 =>
                  if c2 = ',' then parseFields fuel acc2 r4
                  else if c2 = '\x7d' then Except.ok (acc2, r4)
                  else Except.error UnmarshalError.ErrorDeserialize
                | [] => Except.error UnmarshalError.ErrorDeserialize
      else Except.error UnmarshalError.ErrorDeserialize

/-- Modelled from the spec: Session.Unmarshal parses one JSON object from
the front of the text into a fresh session, failing with ErrorDeserialize on
malformed input and ignoring anything after the closing delimiter. -/
def Session.Unmarshal (data : String) : Except UnmarshalError Session :=
  match data.data with
  | c :: rest =>
    if c = '\x7b' then
      match rest with
      | c2 :: _ =>
        if c2 = '\x7d' then Except.ok emptySession
        else (parseFields (data.data.length + 5) emptySession rest).map (fun pr => pr.1)
      | [] => Except.error UnmarshalError.ErrorDeserialize
    else Except.error UnmarshalError.ErrorDeserialize
  | [] => Except.error UnmarshalError.ErrorDeserialize

/-! Round-trip lemmas for the serialization layer. -/

theorem mk_data (s : String) : String.mk s.data = s := rfl

theorem parseStringBody_escape (x r : List Char) :
    parseStringBody (escapeList x ++ '\"' :: r) = Option.some (x, r) := by
  induction x with
  | nil =>
    show parseStringBody ('\"' :: r) = _
    rw [parseStringBody.eq_def]
    simp
  | cons c cs ih =>
    show parseStringBody ((escChar c ++ escapeList cs) ++ '\"' :: r) = _
    rw [List.append_assoc]
    unfold escChar
    by_cases h1 : c = '\\'
    · rw [if_pos h1]
      subst h1
      simp only [List.cons_append]
      rw [parseStringBody.eq_def]
      simp [ih]
    · rw [if_neg h1]
      by_cases h2 : c = '\"'
      · rw [if_pos h2]
        subst h2
        simp only [List.cons_append]
        rw [parseStringBody.eq_def]
        simp [ih]
      · rw [if_neg h2]
        by_cases h3 : c.toNat < 32
        · rw [if_pos h3]
          simp only [List.cons_append]
          rw [parseStringBody.eq_def]
          have h0 : hexVal ('0') = Option.some 0 := rfl
          simp [h0, hexVal_hexDigitChar, ih]
          have hv : c.toNat / 16 % 16 * 16 + c.toNat % 16 = c.toNat := by omega
          rw [hv, Char.ofNat_toNat]
        · rw [if_neg h3]
          simp only [List.cons_append]
          rw [parseStringBody.eq_def]
          simp [h1, h2, ih]

theorem parse4_pad4 (n : Nat) (r : List Char) :
    parse4 (pad4 n ++ r) = Option.some (n % 10000, r) := by
  show parse4 (digitChar (n / 1000) :: digitChar (n / 100) :: digitChar (n / 10) :: digitChar n :: r) = _
  rw [parse4.eq_def]
  simp [digitVal_digitChar]
  omega

theorem parse2_pad2 (n : Nat) (r : List Char) :
    parse2 (pad2 n ++ r) = Option.some (n % 100, r) := by
  show parse2 (digitChar (n / 10) :: digitChar n :: r) = _
  rw [parse2.eq_def]
  simp [digitVal_digitChar]
  omega

theorem expectChar_self (c : Char) (l : List Char) : expectChar c (c :: l) = Option.some l := by
  simp [expectChar]

theorem parseTimeChars_format (t : GoTime) (r : List Char) :
    parseTimeChars (formatTime t ++ r) = Option.some (truncTime t, r) := by
  unfold parseTimeChars formatTime truncTime
  simp only [List.append_assoc, List.cons_append]
  simp only [parse4_pad4, parse2_pad2, expectChar_self, List.nil_append]

theorem parseTime_timeString (t : GoTime) : parseTime (timeString t) = Except.ok (truncTime t) := by
  unfold parseTime timeString
  rw [show (String.mk (formatTime t)).data = formatTime t from rfl]
  have h := parseTimeChars_format t []
  rw [List.append_nil] at h
  rw [h]

theorem parseFields_string_step_comma (n : Nat) (acc acc2 : Session) (key v : String) (r : List Char)
    (happ : applyField acc key (Option.some v) = Except.ok acc2) :
    parseFields (Nat.succ n) acc (escStrOnto key (':' :: escStrOnto v (',' :: r))) =
      parseFields n acc2 r := by
  unfold escStrOnto
  conv_lhs => rw [parseFields.eq_def]
  simp [parseStringBody_escape, expectChar, parseValue, mk_data, happ]

theorem parseFields_string_step_close (n : Nat) (acc acc2 : Session) (key v : String) (r : List Char)
    (happ : applyField acc key (Option.some v) = Except.ok acc2) :
    parseFields (Nat.succ n) acc (escStrOnto key (':' :: escStrOnto v ('\x7d' :: r))) =
      Except.ok (acc2, r) := by
  unfold escStrOnto
  conv_lhs => rw [parseFields.eq_def]
  simp [parseStringBody_escape, expectChar, parseValue, mk_data, happ]

theorem parseFields_step_AuthURL (n : Nat) (acc : Session) (v : String) (r : List Char) :
    parseFields (Nat.succ n) acc (escStrOnto ("AuthURL") (':' :: escStrOnto v (',' :: r))) =
      parseFields n { acc with AuthURL := v } r :=
  parseFields_string_step_comma n acc _ _ v r rfl

theorem parseFields_step_AccessToken (n : Nat) (acc : Session) (v : String) (r : List Char) :
    parseFields (Nat.succ n) acc (escStrOnto ("AccessToken") (':' :: escStrOnto v (',' :: r))) =
      parseFields n { acc with AccessToken := v } r :=
  parseFields_string_step_comma n acc _ _ v r rfl

theorem parseFields_step_Hostname (n : Nat) (acc : Session) (v : String) (r : List Char) :
    parseFields (Nat.succ n) acc (escStrOnto ("Hostname") (':' :: escStrOnto v (',' :: r))) =
      parseFields n { acc with Hostname := v } r :=
  parseFields_string_step_comma n acc _ _ v r rfl

theorem parseFields_step_HMAC (n : Nat) (acc : Session) (v : String) (r : List Char) :
    parseFields (Nat.succ n) acc (escStrOnto ("HMAC") (':' :: escStrOnto v (',' :: r))) =
      parseFields n { acc with HMAC := v } r :=
  parseFields_string_step_comma n acc _ _ v r rfl

theorem parseFields_step_ExpiresAt (n : Nat) (acc : Session) (t : GoTime) (r : List Char) :
    parseFields (Nat.succ n) acc (escStrOnto ("ExpiresAt") (':' :: escStrOnto (timeString t) ('\x7d' :: r))) =
      Except.ok ({ acc with ExpiresAt := truncTime t }, r) :=
  parseFields_string_step_close n acc _ _ _ r (by
    show applyField acc ("ExpiresAt") (Option.some (timeString t)) = _
    simp [applyField, parseTime_timeString])

/-- The session recovered by parsing a serialized session on top of acc: the
five serialized fields overwrite acc, the rest of acc stays. -/
def overwriteSerialized (acc s : Session) : Session :=
  { acc with
      AuthURL := s.AuthURL
      AccessToken := s.AccessToken
      Hostname := s.Hostname
      HMAC := s.HMAC
      ExpiresAt := truncTime s.ExpiresAt }

theorem parseFields_fieldsOnto (s acc : Session) (g : List Char) (n : Nat) :
    parseFields (n + 5) acc (fieldsOnto s g) = Except.ok (overwriteSerialized acc s, g) := by
  show parseFields (Nat.succ (Nat.succ (Nat.succ (Nat.succ (Nat.succ n))))) acc (fieldsOnto s g) = _
  unfold fieldsOnto
  rw [parseFields_step_AuthURL, parseFields_step_AccessToken, parseFields_step_Hostname,
    parseFields_step_HMAC, parseFields_step_ExpiresAt]
  rfl

theorem fieldsOnto_append (s : Session) (r₁ r₂ : List Char) :
    fieldsOnto s r₁ ++ r₂ = fieldsOnto s (r₁ ++ r₂) := by
  simp [fieldsOnto, escStrOnto, List.append_assoc]

/-- Unmarshal of any text whose character data is a serialized session
followed by arbitrary trailing characters recovers the serialized fields on
top of the fresh session. -/
theorem Unmarshal_of_data_eq (str : String) (s : Session) (g : List Char)
    (h : str.data = '\x7b' :: fieldsOnto s g) :
    Session.Unmarshal str = Except.ok (overwriteSerialized emptySession s) := by
  unfold Session.Unmarshal
  rw [h]
  obtain ⟨tail, htail⟩ : ∃ tail, fieldsOnto s g = '\"' :: tail := ⟨_, rfl⟩
  dsimp only
  rw [if_pos (rfl : ('\x7b' : Char) = '\x7b')]
  rw [htail]
  dsimp only
  rw [if_neg (show ¬ ('\"' : Char) = '\x7d' from by decide)]
  rw [← htail, parseFields_fieldsOnto]
  rfl

/-- C6: for every session, Marshal, then Unmarshal, then Marshal again
yields the identical string. -/
theorem C6_marshal_unmarshal_marshal (s : Session) :
    (Session.Unmarshal (Session.Marshal s)).map Session.Marshal =
      Except.ok (Session.Marshal s) := by
  have hU := Unmarshal_of_data_eq (Session.Marshal s) s [] rfl
  rw [hU]
  have hM : Session.Marshal (overwriteSerialized emptySession s) = Session.Marshal s := by
    unfold Session.Marshal marshalOnto fieldsOnto overwriteSerialized
    dsimp only
    rw [show timeString (truncTime s.ExpiresAt) = timeString s.ExpiresAt from
      congrArg String.mk (formatTime_truncTime s.ExpiresAt)]
  show Except.ok (Session.Marshal (overwriteSerialized emptySession s)) = _
  rw [hM]

/-- C9: Unmarshal fails with ErrorDeserialize on malformed input, but any
serialized session followed by arbitrary trailing garbage (for example a
stray trailing quote) parses to exactly the session of the well-formed JSON
prefix: the five serialized fields of s, with the unserialized RefreshToken
left at its zero value. -/
theorem C9_trailing_garbage_tolerated (s : Session) (g : String) (hwf : s.ExpiresAt.WF) :
    Session.Unmarshal (Session.Marshal s ++ g) = Except.ok { s with RefreshToken := "" } ∧
      Session.Unmarshal ("not json") = Except.error UnmarshalError.ErrorDeserialize := by
  constructor
  · have hdata : (Session.Marshal s ++ g).data = '\x7b' :: fieldsOnto s g.data := by
      rw [String.data_append]
      rw [show (Session.Marshal s).data = '\x7b' :: fieldsOnto s [] from rfl]
      rw [List.cons_append, fieldsOnto_append, List.nil_append]
    rw [Unmarshal_of_data_eq (Session.Marshal s ++ g) s g.data hdata]
    have hov : overwriteSerialized emptySession s = { s with RefreshToken := "" } := by
      unfold overwriteSerialized
      rw [truncTime_eq_of_WF s.ExpiresAt hwf]
      rfl
    rw [hov]
  · rfl

/-- C9 witness: the sample session with the stray-trailing-quote garbage of
Test_SessionFromJSON round-trips to the serialized fields, and a malformed
text fails with ErrorDeserialize. -/
theorem C9_trailing_garbage_tolerated_witness :
    Session.Unmarshal (Session.Marshal sampleSession ++ ("\"")) =
        Except.ok { sampleSession with RefreshToken := "" } ∧
      Session.Unmarshal ("not json") = Except.error UnmarshalError.ErrorDeserialize :=
  C9_trailing_garbage_tolerated sampleSession ("\"") (by decide)

end Xero2
